import Mathlib

/-!
# Verification of `need_to_shovel.js`

A shallow embedding of the snow-notification script `src/need_to_shovel.js`.

Modelling conventions:
* Instants within the current local day (used by `pushNotificationIfNeeded`)
  are rationals counting minutes since local midnight of "today"; `moment`'s
  `isAfter` is a strict comparison, embedded as `<`.
* Instants on the two-day timeline used by the aggregator
  (`getPrecipationData`) are rationals counting minutes since local midnight
  of "yesterday"; `moment`'s `isBetween` with default inclusivity is strict
  at both ends, embedded as two strict comparisons.
* Snow levels are rationals (centimeters).
* Errors are strings; the key-value store record is a structure with an
  optional `lastMessageSent` field.
* Callback-style control flow is embedded as explicit event lists: the
  invocations of the caller's callback `cb`, the Pushover send requests and
  the storage writes a run performs, in program order.  The outcome of each
  external call (Pushover send, storage set, storage get) is an explicit
  environment parameter.
-/

namespace NeedToShovel

/-- `DEBUG_LEVEL` constant from the source (line 7). -/
def DEBUG_LEVEL : Nat := 1

/-- `MINIMUM_SNOW_0500` (line 11): snow level in cm for the 5am rule. -/
def MINIMUM_SNOW_0500 : ℚ := 40

/-- `MINIMUM_SNOW_0600` (line 12): snow level in cm for the 6am rule. -/
def MINIMUM_SNOW_0600 : ℚ := 20

/-- `MINIMUM_SNOW_0630` (line 13): snow level in cm for the 6:30am rule. -/
def MINIMUM_SNOW_0630 : ℚ := 5

/-- `time0500` (line 23): today 05:00 local, in minutes since local midnight. -/
def time0500 : ℚ := 5 * 60

/-- `time0600` (line 24): today 06:00 local. -/
def time0600 : ℚ := 6 * 60

/-- `time0630` (line 25): today 06:30 local. -/
def time0630 : ℚ := 6 * 60 + 30

/-- The guard of lines 27-29: `now.isAfter(t)` is moment's strict "after",
so each time condition is `t < now`, and each snow comparison is strict. -/
def shouldNotify (now snowLevel : ℚ) : Bool :=
  (decide (time0500 < now) && decide (MINIMUM_SNOW_0500 < snowLevel)) ||
  (decide (time0600 < now) && decide (MINIMUM_SNOW_0600 < snowLevel)) ||
  (decide (time0630 < now) && decide (MINIMUM_SNOW_0630 < snowLevel))

/-- The Pushover message built on lines 39-46, with the snow level that is
interpolated into the message text kept as a field. -/
structure PushMsg where
  title : String
  sound : String
  retry : Nat
  expire : Nat
  priority : Nat
  snowLevel : ℚ
  deriving Repr, DecidableEq

/-- The concrete message `msg` of lines 39-46. -/
def theMsg (snowLevel : ℚ) : PushMsg :=
  { title := "Time to Shovel!"
    sound := "persistent"
    retry := 60
    expire := 6 * 60 * 60
    priority := if DEBUG_LEVEL > 2 then 0 else 2
    snowLevel := snowLevel }

/-- The result messages the script passes to `cb(null, ...)`, kept structural
(the snow total that is interpolated into the text is a field). -/
inductive ResultMsg where
  | alreadySent : ResultMsg
  | sent : ℚ → ResultMsg
  | noNeed : ℚ → ResultMsg
  deriving Repr, DecidableEq

/-- One invocation of the caller's callback `cb`: either `cb(err)` or
`cb(null, message)`. -/
inductive CbCall where
  | err : String → CbCall
  | ok : ResultMsg → CbCall
  deriving Repr, DecidableEq

/-- Outcomes of the two external calls made inside `pushNotificationIfNeeded`:
the error argument the Pushover send callback is invoked with (line 49), and
the error argument the `storage.set` callback is invoked with (line 56).
`none` means the call succeeded. -/
structure PushEnv where
  sendErr : Option String
  setErr : Option String
  deriving Repr, DecidableEq

/-- Everything observable about one call of `pushNotificationIfNeeded`:
its synchronous return value, the Pushover send requests it issues, the
`cb` invocations made from its callbacks (in event order), and the values
written to storage as `lastMessageSent`. -/
structure PushResult where
  retVal : Bool
  sends : List PushMsg
  cbCalls : List CbCall
  markerWrites : List String
  deriving Repr, DecidableEq

/-- The body of the send callback, lines 49-60.  On a send error the code
calls `cb(err)` but does not return, so it falls through: it always reaches
the `storage.set` call that writes today's date, and the set callback calls
`cb(error)` on a write error. -/
def sendCallback (env : PushEnv) (today : String) : List CbCall × List String :=
  ((match env.sendErr with
    | some e => [CbCall.err e]
    | none => []) ++
   (match env.setErr with
    | some e => [CbCall.err e]
    | none => []),
   [today])

/-- `pushNotificationIfNeeded` (lines 21-63).  When the guard holds it
constructs the Pushover client, sends `msg`, and its send callback later
runs `sendCallback`; the function itself always falls through to
`return false` on line 62 (the `return true` on line 59 only returns from
the inner callback). -/
def pushNotificationIfNeeded (now snowLevel : ℚ) (env : PushEnv)
    (today : String) : PushResult :=
  if shouldNotify now snowLevel then
    { retVal := false
      sends := [theMsg snowLevel]
      cbCalls := (sendCallback env today).1
      markerWrites := (sendCallback env today).2 }
  else
    { retVal := false, sends := [], cbCalls := [], markerWrites := [] }

/-! ## Snow aggregator (`getPrecipationData`, lines 69-116)

Timestamps here count minutes since local midnight of "yesterday". -/

/-- One hourly sample from the weather provider: a timestamp and the optional
`precipAccumulation` value (absent fields are mapped to `0` by `|| 0` on
line 91). -/
structure Sample where
  time : ℚ
  precipAccumulation : Option ℚ
  deriving Repr, DecidableEq

/-- `yesterdayEvening` (line 85): yesterday 21:00 local. -/
def yesterdayEvening : ℚ := 21 * 60

/-- `todayMorning` (line 86): today 22:00 local, i.e. 46 hours after
yesterday's midnight. -/
def todayMorning : ℚ := 24 * 60 + 22 * 60

/-- An element of `snowArray`: time and the defaulted snow value. -/
structure SnowSample where
  time : ℚ
  snow : ℚ
  deriving Repr, DecidableEq

/-- `snowArray` (lines 89-95): map each sample of the concatenated result
sets to `{time, snow}` with missing accumulation defaulted to `0`, then keep
the samples with `isBetween(yesterdayEvening, todayMorning)` — moment's
default inclusivity, strict at both ends. -/
def snowArray (samples : List Sample) : List SnowSample :=
  (samples.map fun x => SnowSample.mk x.time (x.precipAccumulation.getD 0)).filter
    fun x => decide (yesterdayEvening < x.time) && decide (x.time < todayMorning)

/-- `snowTotal` (line 98): left fold summing the `snow` fields. -/
def snowTotal (samples : List Sample) : ℚ :=
  (snowArray samples).foldl (fun sum val => sum + val.snow) 0

/-- The claim's window predicate, taken from the spec's words: inclusive
start at yesterday 21:00, exclusive end at today 22:00. -/
def claimedKept (x : Sample) : Bool :=
  decide (yesterdayEvening ≤ x.time) && decide (x.time < todayMorning)

/-- The total the spec's words describe for the claimed window: sum of the
defaulted accumulation values of the kept samples. -/
def claimedWindowTotal (samples : List Sample) : ℚ :=
  ((samples.filter claimedKept).map fun x => x.precipAccumulation.getD 0).sum

/-- The window predicate the code actually applies: strict at both ends. -/
def codeKept (x : Sample) : Bool :=
  decide (yesterdayEvening < x.time) && decide (x.time < todayMorning)

/-- Spec-style restatement of the total with the code's (both-ends-strict) window:
filter the raw samples, then sum the defaulted accumulation values. -/
def strictWindowTotal (samples : List Sample) : ℚ :=
  ((samples.filter codeKept).map fun x => x.precipAccumulation.getD 0).sum

/-- The synchronous tail of `getPrecipationData`'s success path
(lines 106-110) together with the later callback activity from
`pushNotificationIfNeeded`: the `cb` invocations of the run in event order.
`pushNotificationIfNeeded` returns before its send callback fires, so the
`cb(null, ...)` of lines 107/109 comes first. -/
def afterFetchCbCalls (now total : ℚ) (env : PushEnv) (today : String) :
    List CbCall :=
  (if (pushNotificationIfNeeded now total env today).retVal then
    CbCall.ok (ResultMsg.sent total)
  else
    CbCall.ok (ResultMsg.noNeed total)) ::
  (pushNotificationIfNeeded now total env today).cbCalls

/-! ## Entry point (`module.exports`, lines 121-135) -/

/-- The record read back from `context.storage.get`: line 127 tests
`data.lastMessageSent`, which may be absent. -/
structure StoredData where
  lastMessageSent : Option String
  deriving Repr, DecidableEq

/-- What the entry point does after the storage read: surface the read
error, short-circuit with the "already sent" message, or proceed into
`getPrecipationData`. -/
inductive EntryOutcome where
  | err : String → EntryOutcome
  | alreadySent : EntryOutcome
  | fetch : EntryOutcome
  deriving Repr, DecidableEq

/-- The dedup gate of lines 125-133: on a read error, `cb(error)`; when a
record exists and its `lastMessageSent` equals today's date, `cb(null,
"Message was already sent today!")`; otherwise call `getPrecipationData`.
`getRes` is the outcome of `context.storage.get` (`data` may be absent). -/
def entryGate (today : String) (getRes : Except String (Option StoredData)) :
    EntryOutcome :=
  match getRes with
  | .error e => EntryOutcome.err e
  | .ok d =>
    match d with
    | some dd =>
      if dd.lastMessageSent = some today then EntryOutcome.alreadySent
      else EntryOutcome.fetch
    | none => EntryOutcome.fetch

/-- Number of weather-provider calls each entry outcome performs:
`getPrecipationData` issues exactly the two `loadTime` calls of lines 80-81;
the other paths never reach it. -/
def entryProviderCalls : EntryOutcome → Nat
  | EntryOutcome.fetch => 2
  | _ => 0

/-! ## Theorems -/

/-- Summing with a left fold equals the accumulator plus the sum of the
mapped values. -/
theorem foldl_add_map_sum {α : Type} (g : α → ℚ) (l : List α) (a : ℚ) :
    l.foldl (fun s x => s + g x) a = a + (l.map g).sum := by
  induction l generalizing a with
  | nil => simp
  | cons x xs ih => simp [ih, add_assoc]

/-- C1 counterexample: at exactly 05:00 local time with a snow total of
41 cm, the code sends nothing — `now.isAfter(time0500)` is strict, so none
of the three rules fires — contradicting the claim that a notification is
sent there. -/
theorem C1_counterexample :
    (pushNotificationIfNeeded 300 41 ⟨none, none⟩ "2020-01-01").sends = [] := by
  have h : shouldNotify 300 41 = false := by
    norm_num [shouldNotify, time0500, time0600, time0630,
      MINIMUM_SNOW_0500, MINIMUM_SNOW_0600, MINIMUM_SNOW_0630]
  simp [pushNotificationIfNeeded, h]

/-- C1 (amended): at any instant strictly after 05:00 and at or before
06:00, a snow total of 41 cm triggers a notification and a total of 40 cm
does not (strict inequality on the snow total); at exactly 05:00 nothing is
sent even with 41 cm, because the time comparison is also strict. -/
theorem C1_amended :
    (∀ now : ℚ, time0500 < now → now ≤ time0600 →
      (pushNotificationIfNeeded now 41 ⟨none, none⟩ "2020-01-01").sends = [theMsg 41] ∧
      (pushNotificationIfNeeded now 40 ⟨none, none⟩ "2020-01-01").sends = []) ∧
    (pushNotificationIfNeeded time0500 41 ⟨none, none⟩ "2020-01-01").sends = [] := by
  constructor
  · intro now h1 h2
    have hsend : shouldNotify now 41 = true := by
      simp [shouldNotify, h1, MINIMUM_SNOW_0500]
      norm_num
    have h3 : ¬ time0600 < now := not_lt.mpr h2
    have h4 : ¬ time0630 < now := by
      refine not_lt.mpr (h2.trans ?_)
      norm_num [time0600, time0630]
    have hskip : shouldNotify now 40 = false := by
      simp [shouldNotify, h3, h4, MINIMUM_SNOW_0500]
    constructor
    · simp [pushNotificationIfNeeded, hsend]
    · simp [pushNotificationIfNeeded, hskip]
  · have h : shouldNotify time0500 41 = false := by
      norm_num [shouldNotify, time0500, time0600, time0630,
        MINIMUM_SNOW_0500, MINIMUM_SNOW_0600, MINIMUM_SNOW_0630]
    simp [pushNotificationIfNeeded, h]

/-- C1 witness: the amended statement at the concrete instant 05:01. -/
theorem C1_witness :
    (pushNotificationIfNeeded 301 41 ⟨none, none⟩ "2020-01-01").sends = [theMsg 41] ∧
    (pushNotificationIfNeeded 301 40 ⟨none, none⟩ "2020-01-01").sends = [] :=
  C1_amended.1 301 (by norm_num [time0500]) (by norm_num [time0600])

/-- C2: at 06:15 with 21 cm, when the Pushover send callback reports an
error, the code surfaces the error through `cb` but still writes today's
date as the dedup marker — the `if (err)` branch on lines 50-53 has no
`return`, so execution falls through to `storage.set`.  This contradicts
the claim (and the spec's lifecycle: "written only after a successful
notification send"); the code is the slip, as the same file consistently
uses `if (error) return cb(error)` elsewhere. -/
theorem C2_marker_written_on_send_error :
    (pushNotificationIfNeeded 375 21 ⟨some "send failed", none⟩ "2020-01-01").cbCalls
      = [CbCall.err "send failed"] ∧
    (pushNotificationIfNeeded 375 21 ⟨some "send failed", none⟩ "2020-01-01").markerWrites
      = ["2020-01-01"] := by
  have h : shouldNotify 375 21 = true := by
    norm_num [shouldNotify, time0500, time0600, time0630,
      MINIMUM_SNOW_0500, MINIMUM_SNOW_0600, MINIMUM_SNOW_0630]
  simp [pushNotificationIfNeeded, h, sendCallback]

/-- C3 counterexample: a single sample timestamped exactly yesterday 21:00
with accumulation 3 cm.  The claim's window (inclusive start) keeps it and
totals 3; the code's `isBetween` with default inclusivity excludes the
start, so `snowTotal` is 0. -/
theorem C3_counterexample :
    snowTotal [⟨21 * 60, some 3⟩] ≠ claimedWindowTotal [⟨21 * 60, some 3⟩] := by
  have h1 : snowTotal [⟨21 * 60, some 3⟩] = 0 := by
    norm_num [snowTotal, snowArray, yesterdayEvening, todayMorning]
  have h2 : claimedWindowTotal [⟨21 * 60, some 3⟩] = 3 := by
    norm_num [claimedWindowTotal, claimedKept, yesterdayEvening, todayMorning]
  rw [h1, h2]
  norm_num

/-- C3 (amended): the aggregator keeps exactly the samples whose timestamp
lies strictly between yesterday 21:00 and today 22:00 (both endpoints
exclusive), treats a missing accumulation value as 0, and returns the sum
of the kept samples' accumulation values. -/
theorem C3_amended (samples : List Sample) :
    snowTotal samples = strictWindowTotal samples := by
  unfold snowTotal strictWindowTotal snowArray
  rw [List.filter_map]
  have hpred : ∀ x : Sample,
      ((fun y : SnowSample =>
          decide (yesterdayEvening < y.time) && decide (y.time < todayMorning)) ∘
        fun x : Sample => SnowSample.mk x.time (x.precipAccumulation.getD 0)) x
      = codeKept x := by
    intro x
    simp [codeKept, Function.comp]
  rw [List.filter_congr fun x _ => hpred x]
  rw [foldl_add_map_sum (fun v : SnowSample => v.snow)]
  simp only [List.map_map, zero_add]
  rfl

/-- C4: when the stored record's `lastMessageSent` equals today's date the
run short-circuits with the "already sent" result and performs no
weather-provider calls; a storage read error is surfaced to the caller and
also reaches no provider; in every other case the run proceeds into
`getPrecipationData`. -/
theorem C4_dedup_gate (today : String) (getRes : Except String (Option StoredData)) :
    (∀ dd : StoredData, getRes = Except.ok (some dd) →
      dd.lastMessageSent = some today →
      entryGate today getRes = EntryOutcome.alreadySent ∧
      entryProviderCalls (entryGate today getRes) = 0) ∧
    (∀ e : String, getRes = Except.error e →
      entryGate today getRes = EntryOutcome.err e ∧
      entryProviderCalls (entryGate today getRes) = 0) ∧
    (∀ d : Option StoredData, getRes = Except.ok d →
      (∀ dd : StoredData, d = some dd → dd.lastMessageSent ≠ some today) →
      entryGate today getRes = EntryOutcome.fetch) := by
  refine ⟨?_, ?_, ?_⟩
  · intro dd hres hmark
    subst hres
    simp [entryGate, entryProviderCalls, hmark]
  · intro e hres
    subst hres
    simp [entryGate, entryProviderCalls]
  · intro d hres hne
    subst hres
    match d with
    | none => simp [entryGate]
    | some dd => simp [entryGate, hne dd rfl]

/-- C4 witness: with the marker equal to today's date, the gate
short-circuits and no provider call happens. -/
theorem C4_witness :
    entryGate "2020-01-02" (Except.ok (some ⟨some "2020-01-02"⟩)) =
      EntryOutcome.alreadySent ∧
    entryProviderCalls
      (entryGate "2020-01-02" (Except.ok (some ⟨some "2020-01-02"⟩))) = 0 :=
  (C4_dedup_gate "2020-01-02" (Except.ok (some ⟨some "2020-01-02"⟩))).1
    ⟨some "2020-01-02"⟩ rfl rfl

/-- C5: for every snow total at most 5 cm and every local time, no
notification is sent (every rule's threshold is at least 5 cm and all snow
comparisons are strict), and the run leaves no other trace either. -/
theorem C5_no_send_at_or_below_five (now snow : ℚ) (env : PushEnv)
    (today : String) (h : snow ≤ 5) :
    pushNotificationIfNeeded now snow env today =
      { retVal := false, sends := [], cbCalls := [], markerWrites := [] } := by
  have h1 : ¬ MINIMUM_SNOW_0500 < snow := by
    refine not_lt.mpr (h.trans ?_)
    norm_num [MINIMUM_SNOW_0500]
  have h2 : ¬ MINIMUM_SNOW_0600 < snow := by
    refine not_lt.mpr (h.trans ?_)
    norm_num [MINIMUM_SNOW_0600]
  have h3 : ¬ MINIMUM_SNOW_0630 < snow := not_lt.mpr (by rwa [MINIMUM_SNOW_0630])
  have hsn : shouldNotify now snow = false := by
    simp [shouldNotify, h1, h2, h3]
  simp [pushNotificationIfNeeded, hsn]

/-- C5 witness: at 06:40 local with 3 cm nothing is sent. -/
theorem C5_witness :
    pushNotificationIfNeeded 400 3 ⟨none, none⟩ "2020-01-01" =
      { retVal := false, sends := [], cbCalls := [], markerWrites := [] } :=
  C5_no_send_at_or_below_five 400 3 ⟨none, none⟩ "2020-01-01" (by norm_num)

/-- C6: when the guard of lines 27-29 is false, `pushNotificationIfNeeded`
sends nothing, invokes no callback and writes no state. -/
theorem C6_no_match_no_effects (now snow : ℚ) (env : PushEnv) (today : String)
    (h : shouldNotify now snow = false) :
    pushNotificationIfNeeded now snow env today =
      { retVal := false, sends := [], cbCalls := [], markerWrites := [] } := by
  simp [pushNotificationIfNeeded, h]

/-- C6 witness: at midnight with no snow nothing happens. -/
theorem C6_witness :
    pushNotificationIfNeeded 0 0 ⟨none, none⟩ "2020-01-01" =
      { retVal := false, sends := [], cbCalls := [], markerWrites := [] } :=
  C6_no_match_no_effects 0 0 ⟨none, none⟩ "2020-01-01"
    (by norm_num [shouldNotify, time0500, time0600, time0630,
      MINIMUM_SNOW_0500, MINIMUM_SNOW_0600, MINIMUM_SNOW_0630])

/-- C7: at 06:15 local time (375 minutes) a total of 21 cm triggers the
06:00 rule and the Pushover message is sent; a total of 6 cm matches no
rule and nothing is sent. -/
theorem C7_0615_rules :
    (pushNotificationIfNeeded 375 21 ⟨none, none⟩ "2020-01-01").sends =
      [theMsg 21] ∧
    (pushNotificationIfNeeded 375 6 ⟨none, none⟩ "2020-01-01").sends = [] := by
  have h1 : shouldNotify 375 21 = true := by
    norm_num [shouldNotify, time0500, time0600, time0630,
      MINIMUM_SNOW_0500, MINIMUM_SNOW_0600, MINIMUM_SNOW_0630]
  have h2 : shouldNotify 375 6 = false := by
    norm_num [shouldNotify, time0500, time0600, time0630,
      MINIMUM_SNOW_0500, MINIMUM_SNOW_0600, MINIMUM_SNOW_0630]
  constructor
  · simp [pushNotificationIfNeeded, h1]
  · simp [pushNotificationIfNeeded, h2]

/-- C8: `pushNotificationIfNeeded` returns `false` on every call — the
`return true` of line 59 only returns from the send callback — so the
synchronous `cb(null, ...)` of `getPrecipationData` always carries the
"no need to shovel" message, and the "message has been sent!" branch is
unreachable. -/
theorem C8_retval_always_false (now total : ℚ) (env : PushEnv) (today : String) :
    (pushNotificationIfNeeded now total env today).retVal = false ∧
    (afterFetchCbCalls now total env today).head? =
      some (CbCall.ok (ResultMsg.noNeed total)) := by
  cases h : shouldNotify now total <;>
    simp [pushNotificationIfNeeded, afterFetchCbCalls, h]

/-- C9: when a rule matches and the Pushover send callback reports an
error, the caller's callback is invoked twice in one run: first
synchronously with the "no need to shovel" success message, then from the
send callback with the error. -/
theorem C9_double_callback (now total : ℚ) (e : String) (today : String)
    (h : shouldNotify now total = true) :
    afterFetchCbCalls now total ⟨some e, none⟩ today =
      [CbCall.ok (ResultMsg.noNeed total), CbCall.err e] ∧
    1 < (afterFetchCbCalls now total ⟨some e, none⟩ today).length := by
  constructor <;>
    simp [afterFetchCbCalls, pushNotificationIfNeeded, h, sendCallback]

/-- C9 witness: at 06:15 with 21 cm and a failing send, `cb` fires twice. -/
theorem C9_witness :
    afterFetchCbCalls 375 21 ⟨some "boom", none⟩ "2020-01-01" =
      [CbCall.ok (ResultMsg.noNeed 21), CbCall.err "boom"] ∧
    1 < (afterFetchCbCalls 375 21 ⟨some "boom", none⟩ "2020-01-01").length :=
  C9_double_callback 375 21 "boom" "2020-01-01"
    (by norm_num [shouldNotify, time0500, time0600, time0630,
      MINIMUM_SNOW_0500, MINIMUM_SNOW_0600, MINIMUM_SNOW_0630])

/-- C10: the send decision is monotone in the snow total; the three time
conditions are nested (after 06:30 implies after 06:00 and after 05:00);
and strictly after 06:30 the decision is exactly "total strictly above
5 cm". -/
theorem C10_monotone_nested :
    (∀ now s t : ℚ, s ≤ t → shouldNotify now s = true →
      shouldNotify now t = true) ∧
    (∀ now : ℚ, time0630 < now → time0600 < now ∧ time0500 < now) ∧
    (∀ now s : ℚ, time0630 < now →
      (shouldNotify now s = true ↔ MINIMUM_SNOW_0630 < s)) := by
  refine ⟨?_, ?_, ?_⟩
  · intro now s t hst h
    simp only [shouldNotify, Bool.or_eq_true, Bool.and_eq_true,
      decide_eq_true_eq] at h ⊢
    rcases h with (⟨ht, hs⟩ | ⟨ht, hs⟩) | ⟨ht, hs⟩
    · exact Or.inl (Or.inl ⟨ht, lt_of_lt_of_le hs hst⟩)
    · exact Or.inl (Or.inr ⟨ht, lt_of_lt_of_le hs hst⟩)
    · exact Or.inr ⟨ht, lt_of_lt_of_le hs hst⟩
  · intro now h
    constructor
    · refine lt_trans ?_ h
      norm_num [time0600, time0630]
    · refine lt_trans ?_ h
      norm_num [time0500, time0630]
  · intro now s h
    have h06 : time0600 < now := by
      refine lt_trans ?_ h
      norm_num [time0600, time0630]
    have h05 : time0500 < now := by
      refine lt_trans ?_ h
      norm_num [time0500, time0630]
    constructor
    · intro hsn
      simp only [shouldNotify, Bool.or_eq_true, Bool.and_eq_true,
        decide_eq_true_eq] at hsn
      rcases hsn with (⟨_, hs⟩ | ⟨_, hs⟩) | ⟨_, hs⟩
      · refine lt_trans ?_ hs
        norm_num [MINIMUM_SNOW_0500, MINIMUM_SNOW_0630]
      · refine lt_trans ?_ hs
        norm_num [MINIMUM_SNOW_0600, MINIMUM_SNOW_0630]
      · exact hs
    · intro hs
      simp only [shouldNotify, Bool.or_eq_true, Bool.and_eq_true,
        decide_eq_true_eq]
      exact Or.inr ⟨h, hs⟩

/-- C10 witness: at 06:40 the effective threshold is 5 cm, so 10 cm
triggers the decision. -/
theorem C10_witness : shouldNotify 400 10 = true :=
  (C10_monotone_nested.2.2 400 10 (by norm_num [time0630])).mpr
    (by norm_num [MINIMUM_SNOW_0630])

end NeedToShovel
